import Mathlib

/-!
Shallow embedding of the qubic fraud backend (`src/server.js`): the risk
scoring engine (`riskLevelFromScore`, `computeRisk`), the wallet
intelligence tracker (`updateWalletStats`), the ingestion flow
(`POST /api/transactions`) and the read endpoints needed by the claims
(`GET /api/transactions`, `GET /api/wallet/:id`).

JavaScript numbers are modelled as exact rationals (`ℚ`); risk scores,
which the code builds from non-negative integer weights, are modelled as
`ℕ`.  `null`/`undefined` become `Option`; JS falsiness of `0` and `""`
is spelled out at each use site, matching the source line by line.
-/

namespace QubicFraud

/-- The four risk levels of `riskLevelFromScore` (`server.js:15-20`). -/
inductive RiskLevel where
  | LOW
  | MEDIUM
  | HIGH
  | CRITICAL
deriving DecidableEq, Repr

/-- String form of a risk level, as stored in `riskLevel` in the JS code. -/
def RiskLevel.toStr : RiskLevel → String
  | .LOW => "LOW"
  | .MEDIUM => "MEDIUM"
  | .HIGH => "HIGH"
  | .CRITICAL => "CRITICAL"

/-- Ordinal rank of a risk level: LOW < MEDIUM < HIGH < CRITICAL. -/
def RiskLevel.rank : RiskLevel → ℕ
  | .LOW => 0
  | .MEDIUM => 1
  | .HIGH => 2
  | .CRITICAL => 3

/-- Threshold classifier `riskLevelFromScore` (`server.js:15-20`),
highest first. -/
def riskLevelFromScore (score : ℚ) : RiskLevel :=
  if score ≥ 85 then .CRITICAL
  else if score ≥ 65 then .HIGH
  else if score ≥ 40 then .MEDIUM
  else .LOW

/-- A normalized transaction as built in the POST handler
(`server.js:132-140`), before risk enrichment.  `id` and `time` are kept
out: `id` is added by the handler, `time` is the wall clock. -/
structure Tx where
  amount : ℚ
  source : String
  dest : String
  tick : ℚ
  procedure : String
deriving DecidableEq, Repr

/-- A wallet statistics snapshot (`server.js:107-115`).  `lastTick` and
`lastTime` start as `null`, modelled by `Option`. -/
structure WalletSnapshot where
  walletId : String
  txCount : ℕ
  totalVolume : ℚ
  avgRisk : ℚ
  lastTick : Option ℚ
  lastTime : Option String
deriving DecidableEq, Repr

/-- Result triple of `computeRisk` (`server.js:100`). -/
structure RiskResult where
  score : ℕ
  level : RiskLevel
  reasons : List String
deriving DecidableEq, Repr

/-- The `procedureRiskTable` object literal (`server.js:46-50`)
restricted to its three own keys.  The program's truthiness lookup
`procedureRiskTable[procedure]` also traverses the prototype chain and
can hit inherited `Object.prototype` members; that full behavior is
modelled by `procedureLookupJs`. -/
def procedureRiskTable (p : String) : Option ℕ :=
  if p = "QxAddToBidOrder" then some 20
  else if p = "TransferShareOwnershipAndPossession" then some 30
  else if p = "IssueAsset" then some 35
  else none

/-- Rule block 1 of `computeRisk` (`server.js:33-43`): amount bands,
mutually exclusive, highest first.  Returns (weight, pushed reasons). -/
def amountRule (amount : ℚ) : ℕ × List String :=
  if amount ≥ 1000000 then (45, ["Very large transaction amount (>= 1M QU)"])
  else if amount ≥ 100000 then (30, ["Large transaction amount (>= 100k QU)"])
  else if amount ≥ 10000 then (15, ["Moderate transaction amount (>= 10k QU)"])
  else (0, [])

/-- Rule block 2 of `computeRisk` (`server.js:52-58`) in the ideal
own-keys-only reading: table lookup, else +5 for a non-empty (truthy)
procedure, else nothing.  `procedureRuleJs` refines this with the
inherited `Object.prototype` member names the JS lookup also hits. -/
def procedureRule (procedure : String) : ℕ × List String :=
  match procedureRiskTable procedure with
  | some w => (w, ["High-risk procedure type: " ++ procedure])
  | none =>
    if procedure ≠ "" then (5, ["Unknown / less common procedure: " ++ procedure])
    else (0, [])

/-- Rule block 3 of `computeRisk` (`server.js:61-88`): wallet history
rules when a snapshot exists, otherwise the brand-new-wallet rule. -/
def historyRule (amount tick : ℚ) (walletInfo : Option WalletSnapshot) :
    ℕ × List String :=
  match walletInfo with
  | some w =>
    let p1 : ℕ × List String :=
      if w.txCount ≤ 2 ∧ amount ≥ 10000 then
        (20, ["New wallet sending large amount"]) else (0, [])
    let p2 : ℕ × List String :=
      if w.txCount ≥ 5 ∧ amount ≥ 50000 then
        (15, ["Experienced wallet doing unusually large transfer"]) else (0, [])
    let p3 : ℕ × List String :=
      match w.lastTick with
      | some lt =>
        if |tick - lt| ≤ 3 then
          (20, ["Rapid burst of transactions in a short tick window"]) else (0, [])
      | none => (0, [])
    let p4 : ℕ × List String :=
      if w.avgRisk ≥ 60 then
        (10, ["Wallet already has history of risky transactions"]) else (0, [])
    (p1.1 + p2.1 + p3.1 + p4.1, p1.2 ++ p2.2 ++ p3.2 ++ p4.2)
  | none =>
    if amount ≥ 10000 then
      (10, ["Brand new wallet with significant amount"]) else (0, [])

/-- Rule block 4 of `computeRisk` (`server.js:91-94`): source and dest
both truthy (non-empty) and identical. -/
def identityRule (src dest : String) : ℕ × List String :=
  if src ≠ "" ∧ dest ≠ "" ∧ src = dest then
    (10, ["Source and destination wallet are identical"]) else (0, [])

/-- Scoring engine `computeRisk` (`server.js:23-101`): additive rule
blocks in source order, reasons pushed in the same order, score
hard-capped at 100, level classified from the capped score.
`computeRiskJs` refines this engine with full JS property and number
semantics of the procedure lookup; the two agree whenever the procedure
string does not collide with an inherited `Object.prototype` member
name (`computeRiskJs_agree`). -/
def computeRisk (tx : Tx) (walletInfo : Option WalletSnapshot) : RiskResult :=
  let a := amountRule tx.amount
  let p := procedureRule tx.procedure
  let h := historyRule tx.amount tx.tick walletInfo
  let i := identityRule tx.source tx.dest
  let raw := a.1 + p.1 + h.1 + i.1
  let score := if raw > 100 then 100 else raw
  { score := score
    level := riskLevelFromScore (score : ℚ)
    reasons := a.2 ++ p.2 ++ h.2 ++ i.2 }

/-- The `walletStats` object (`server.js:11`): wallet id to snapshot. -/
def WalletMap := String → Option WalletSnapshot

/-- The snapshot created on first reference (`server.js:108-115`). -/
def freshSnapshot (walletId : String) : WalletSnapshot :=
  { walletId := walletId, txCount := 0, totalVolume := 0, avgRisk := 0,
    lastTick := none, lastTime := none }

/-- The mutation body of `updateWalletStats` (`server.js:118-124`): bump
`txCount`, add the amount, rolling average, `lastTick = tx.tick || w.lastTick`
(so a zero tick, being falsy, keeps the old value), stamp `lastTime`.
Arithmetic here is exact (rational); the IEEE-754 binary64 rounding the
program's doubles actually perform is modelled by `applyTxFl`. -/
def applyTx (w : WalletSnapshot) (txRisk : RiskResult) (tx : Tx) (now : String) :
    WalletSnapshot :=
  let txCount := w.txCount + 1
  { w with
    txCount := txCount
    totalVolume := w.totalVolume + tx.amount
    avgRisk := (w.avgRisk * ((txCount : ℚ) - 1) + (txRisk.score : ℚ)) / (txCount : ℚ)
    lastTick := if tx.tick = 0 then w.lastTick else some tx.tick
    lastTime := some now }

/-- Tracker update `updateWalletStats` (`server.js:104-125`): no-op on a falsy (empty)
wallet id, otherwise create-if-missing then mutate. -/
def updateWalletStats (stats : WalletMap) (walletId : String)
    (txRisk : RiskResult) (tx : Tx) (now : String) : WalletMap :=
  if walletId = "" then stats
  else
    let w0 := (stats walletId).getD (freshSnapshot walletId)
    fun w => if w = walletId then some (applyTx w0 txRisk tx now) else stats w

/-- A raw numeric input field as seen by `Number(x) || 0`
(`server.js:134,137`): absent, non-numeric (`Number` gives `NaN`), or a
number. -/
inductive RawNum where
  | missing
  | nonNumeric
  | num (q : ℚ)
deriving DecidableEq, Repr

/-- Numeric coercion `Number(x) || 0`: `NaN` (from a missing or non-numeric field) and `0`
are falsy and give `0`; any other number passes through unchanged —
negative values included. -/
def RawNum.toNumber : RawNum → ℚ
  | .missing => 0
  | .nonNumeric => 0
  | .num q => q

/-- A raw request body as destructured by the POST handler
(`server.js:130-138`); string fields may be absent (`x || ""`). -/
structure RawTx where
  amount : RawNum
  source : Option String
  dest : Option String
  tick : RawNum
  procedure : Option String
deriving DecidableEq, Repr

/-- Field normalization of the POST handler (`server.js:132-140`). -/
def normalizeTx (raw : RawTx) : Tx :=
  { amount := raw.amount.toNumber
    source := raw.source.getD ""
    dest := raw.dest.getD ""
    tick := raw.tick.toNumber
    procedure := raw.procedure.getD "" }

/-- An enriched transaction as pushed to `transactions`
(`server.js:149-155`). -/
structure StoredTx where
  id : ℕ
  amount : ℚ
  source : String
  dest : String
  tick : ℚ
  procedure : String
  time : String
  riskScore : ℕ
  riskLevel : RiskLevel
  reasons : List String
deriving DecidableEq, Repr

/-- The module-level mutable state (`server.js:10-12`). -/
structure ServerState where
  transactions : List StoredTx
  walletStats : WalletMap
  nextId : ℕ

/-- State at process start (`server.js:10-12`). -/
def initialState : ServerState :=
  { transactions := [], walletStats := fun _ => none, nextId := 1 }

/-- Ingestion handler `POST /api/transactions` (`server.js:128-167`): normalize, read the
source wallet snapshot, score, store the enriched transaction, then
update both wallets with the same risk result.  `now` stands for the
wall clock.  Returns the new state and the stored transaction of the
response. -/
def postTransaction (st : ServerState) (raw : RawTx) (now : String) :
    ServerState × StoredTx :=
  let tx := normalizeTx raw
  let walletInfo := st.walletStats tx.source
  let risk := computeRisk tx walletInfo
  let stored : StoredTx :=
    { id := st.nextId, amount := tx.amount, source := tx.source,
      dest := tx.dest, tick := tx.tick, procedure := tx.procedure,
      time := now, riskScore := risk.score, riskLevel := risk.level,
      reasons := risk.reasons }
  let stats1 := updateWalletStats st.walletStats tx.source risk tx now
  let stats2 := updateWalletStats stats1 tx.dest risk tx now
  ({ transactions := st.transactions ++ [stored],
     walletStats := stats2,
     nextId := st.nextId + 1 }, stored)

/-- Characters removed by the `TrimString` step of JS `parseInt`:
ECMAScript WhiteSpace (TAB U+0009, VT U+000B, FF U+000C, SP U+0020,
NBSP U+00A0, ZWNBSP U+FEFF and the Unicode Space_Separator category)
together with LineTerminator (LF U+000A, CR U+000D, LS U+2028,
PS U+2029). -/
def jsStrWhiteSpaceChar (c : Char) : Bool :=
  let n := c.toNat
  n = 0x09 || n = 0x0A || n = 0x0B || n = 0x0C || n = 0x0D || n = 0x20 ||
  n = 0xA0 || n = 0x1680 || (0x2000 ≤ n && n ≤ 0x200A) || n = 0x2028 ||
  n = 0x2029 || n = 0x202F || n = 0x205F || n = 0x3000 || n = 0xFEFF

/-- JS `parseInt(s, 10)`: strip the `TrimString` whitespace set, then an
optional sign and the longest digit prefix; `none` models `NaN` (no
digits). -/
def jsParseInt (s : String) : Option ℤ :=
  let cs := s.toList.dropWhile (fun c => jsStrWhiteSpaceChar c)
  let signAndRest : ℤ × List Char :=
    match cs with
    | '-' :: rest => (-1, rest)
    | '+' :: rest => (1, rest)
    | _ => (1, cs)
  let ds := signAndRest.2.takeWhile (fun c => c.isDigit)
  if ds = [] then none
  else some (signAndRest.1 *
    (ds.foldl (fun a c => a * 10 + (c.toNat - Char.toNat '0')) 0 : ℕ))

/-- JS `Array.prototype.slice(start)` for a single argument:
`ToIntegerOrInfinity` sends `NaN` (modelled `none`) to `0`; a negative
start is clamped to `max (length + start) 0`, a non-negative one to
`min start length`. -/
def jsSlice (l : List StoredTx) (start : Option ℤ) : List StoredTx :=
  match start with
  | none => l
  | some k =>
    if k < 0 then l.drop (max ((l.length : ℤ) + k) 0).toNat
    else l.drop (min k (l.length : ℤ)).toNat

/-- The `level` filter of `GET /api/transactions` (`server.js:173-178`):
applied only when the query value is truthy (present and non-empty),
comparing upper-cased level names. -/
def levelFilter (txs : List StoredTx) (level : Option String) : List StoredTx :=
  match level with
  | none => txs
  | some lv =>
    if lv = "" then txs
    else txs.filter (fun t => t.riskLevel.toStr.toUpper = lv.toUpper)

/-- Endpoint `GET /api/transactions` (`server.js:170-182`): filter by level, then
`lim = limit ? parseInt(limit, 10) : filtered.length`, and respond
`filtered.slice(-lim).reverse()`. -/
def getTransactions (st : ServerState) (level limit : Option String) :
    List StoredTx :=
  let filtered := levelFilter st.transactions level
  let lim : Option ℤ :=
    match limit with
    | none => some (filtered.length : ℤ)
    | some s => if s = "" then some (filtered.length : ℤ) else jsParseInt s
  (jsSlice filtered (lim.map (fun n => -n))).reverse

/-- A low-risk raw body used to instantiate universally quantified
claims on a concrete input. -/
def rawLow : RawTx :=
  { amount := .num 5, source := some "A", dest := some "B",
    tick := .num 1, procedure := none }
/-- A sequence of `updateWalletStats` calls against one wallet id, each
event carrying the risk result, the transaction and the timestamp. -/
def applyScores (stats : WalletMap) (id : String)
    (events : List (RiskResult × Tx × String)) : WalletMap :=
  events.foldl (fun s e => updateWalletStats s id e.1 e.2.1 e.2.2) stats
/-- A risk result with only a score, used for concrete wallet-tracker
instantiations. -/
def scoreOnly (n : ℕ) : RiskResult := { score := n, level := .LOW, reasons := [] }
/-- A transaction with a given tick, used for concrete wallet-tracker
instantiations. -/
def txWithTick (t : ℚ) : Tx :=
  { amount := 0, source := "A", dest := "B", tick := t, procedure := "" }
/-- Two concrete update events with scores 10 and 20. -/
def evList : List (RiskResult × Tx × String) :=
  [(scoreOnly 10, txWithTick 1, "t1"), (scoreOnly 20, txWithTick 2, "t2")]
/-- A raw body with a negative numeric amount. -/
def rawNeg : RawTx :=
  { amount := .num (-5), source := some "A", dest := some "B",
    tick := .num 1, procedure := none }
/-- A concrete stored transaction referencing wallets A and B. -/
def storedA : StoredTx :=
  { id := 1, amount := 5, source := "A", dest := "B", tick := 1,
    procedure := "", time := "t", riskScore := 0, riskLevel := .LOW,
    reasons := [] }
/-- A concrete server state with one stored transaction and no
snapshots. -/
def stA : ServerState :=
  { transactions := [storedA], walletStats := fun _ => none, nextId := 2 }
/-- Member names a bare object literal inherits from `Object.prototype`,
which the truthiness lookup `procedureRiskTable[procedure]`
(`server.js:52`) can hit: each value is truthy (a function, or the
prototype object itself for `__proto__`), so these strings take the
table-hit branch in the program. -/
def objectPrototypeKeys : List String :=
  ["constructor", "hasOwnProperty", "isPrototypeOf", "propertyIsEnumerable",
   "toLocaleString", "toString", "valueOf", "__defineGetter__",
   "__defineSetter__", "__lookupGetter__", "__lookupSetter__", "__proto__"]

/-- Value of the JS `score` variable: a number (only naturals are
reachable, since the weights are non-negative integers), or the
non-numeric string produced once `score +=` receives an inherited
`Object.prototype` member (function source text, or "[object Object]"
for `__proto__`).  Every string reachable that way is digits followed
by non-digit text, so JS `ToNumber` on it yields `NaN`; the model keeps
that fact and abstracts the engine-dependent text itself. -/
inductive JsScore where
  | num (n : ℕ)
  | nonNumeric
deriving DecidableEq, Repr

/-- JS `score += w` for an integer weight `w`: numbers add; a string
concatenates the digits of `w` and stays a non-numeric string. -/
def JsScore.addNum : JsScore → ℕ → JsScore
  | .num m, w => .num (m + w)
  | .nonNumeric, _ => .nonNumeric

/-- JS `score > c`: on a non-numeric string the comparison goes through
`ToNumber`, gives `NaN` and is false. -/
def JsScore.gtNum : JsScore → ℕ → Bool
  | .num m, c => decide (c < m)
  | .nonNumeric, _ => false

/-- JS `score >= c`: on a non-numeric string the comparison is false. -/
def JsScore.geNum : JsScore → ℕ → Bool
  | .num m, c => decide (c ≤ m)
  | .nonNumeric, _ => false

/-- Whether a JS score value is a number lying in `[0, 100]` (the lower
bound is automatic for `ℕ`). -/
def JsScore.inRangeB : JsScore → Bool
  | .num m => decide (m ≤ 100)
  | .nonNumeric => false

/-- Outcome of the JS property read `procedureRiskTable[procedure]`:
an own key with its weight, a truthy inherited `Object.prototype`
member, or `undefined`. -/
inductive ProcLookup where
  | ownHit (w : ℕ)
  | protoHit
  | miss
deriving DecidableEq, Repr

/-- Lookup `procedureRiskTable[procedure]` (`server.js:52`) under full
JS property semantics: own keys first, then the prototype chain. -/
def procedureLookupJs (p : String) : ProcLookup :=
  match procedureRiskTable p with
  | some w => .ownHit w
  | none => if p ∈ objectPrototypeKeys then .protoHit else .miss

/-- Effect of the procedure rule on the score: add an integer weight, or
corrupt the score into a non-numeric string. -/
inductive ProcEffect where
  | addNum (w : ℕ)
  | corrupt
deriving DecidableEq, Repr

/-- Rule block 2 of `computeRisk` (`server.js:52-58`) under full JS
semantics: a truthy lookup result (own key or inherited member) takes
the table-hit branch with its High-risk reason; otherwise +5 for a
non-empty procedure, nothing for the empty one. -/
def procedureRuleJs (p : String) : ProcEffect × List String :=
  match procedureLookupJs p with
  | .ownHit w => (.addNum w, ["High-risk procedure type: " ++ p])
  | .protoHit => (.corrupt, ["High-risk procedure type: " ++ p])
  | .miss =>
    if p ≠ "" then (.addNum 5, ["Unknown / less common procedure: " ++ p])
    else (.addNum 0, [])

/-- Application of a procedure-rule effect to the running score. -/
def ProcEffect.apply : ProcEffect → JsScore → JsScore
  | .addNum w, s => s.addNum w
  | .corrupt, _ => .nonNumeric

/-- Result triple of `computeRisk` under full JS semantics: the score
may be a non-numeric string. -/
structure JsRiskResult where
  score : JsScore
  level : RiskLevel
  reasons : List String
deriving DecidableEq, Repr

/-- Threshold classifier `riskLevelFromScore` (`server.js:15-20`) as
executed on a possibly non-numeric score: every comparison on the
string is NaN-false, so it classifies as LOW. -/
def riskLevelFromScoreJs (s : JsScore) : RiskLevel :=
  if s.geNum 85 then .CRITICAL
  else if s.geNum 65 then .HIGH
  else if s.geNum 40 then .MEDIUM
  else .LOW

/-- Scoring engine `computeRisk` (`server.js:23-101`) refined to full JS
property and number semantics of the procedure lookup: rule blocks in
source order, the cap `if (score > 100)` NaN-false on a corrupted
score. -/
def computeRiskJs (tx : Tx) (walletInfo : Option WalletSnapshot) : JsRiskResult :=
  let a := amountRule tx.amount
  let p := procedureRuleJs tx.procedure
  let h := historyRule tx.amount tx.tick walletInfo
  let i := identityRule tx.source tx.dest
  let s1 := (JsScore.num 0).addNum a.1
  let s2 := p.1.apply s1
  let s3 := (s2.addNum h.1).addNum i.1
  let score := if s3.gtNum 100 then JsScore.num 100 else s3
  { score := score
    level := riskLevelFromScoreJs score
    reasons := a.2 ++ p.2 ++ h.2 ++ i.2 }

/-- Transaction whose procedure collides with the inherited
`Object.prototype.toString` member. -/
def txToString : Tx :=
  { amount := 250000, source := "0xA1B2", dest := "0xC3D4", tick := 12045,
    procedure := "toString" }

/-- Floor of the base-2 logarithm of a positive rational, via
`Nat.log2` of the integer part (of the reciprocal when below one). -/
def ratLog2Floor (q : ℚ) : ℤ :=
  if 1 ≤ q then (Nat.log2 ⌊q⌋.toNat : ℤ)
  else
    let f : ℤ := (Nat.log2 ⌊q⁻¹⌋.toNat : ℤ)
    if (2 : ℚ) ^ f = q⁻¹ then -f else -(f + 1)

/-- Rounding to nearest, ties to even, at 53 significant bits: the
result of one IEEE-754 binary64 operation on values in the normal range
(overflow and subnormals do not occur at the program's magnitudes). -/
def fl (q : ℚ) : ℚ :=
  if q = 0 then 0
  else
    let s : ℚ := if q < 0 then -1 else 1
    let a := |q|
    let e : ℤ := ratLog2Floor a - 52
    let m : ℚ := a * (2 : ℚ) ^ (-e)
    let mf : ℤ := ⌊m⌋
    let mr : ℤ :=
      if m - mf < 1 / 2 then mf
      else if 1 / 2 < m - mf then mf + 1
      else if mf % 2 = 0 then mf else mf + 1
    s * mr * (2 : ℚ) ^ e

/-- The mutation body of `updateWalletStats` (`server.js:118-124`) under
IEEE-754 double arithmetic: every arithmetic operation rounds its exact
result to binary64 through `fl`, as the program's numbers do. -/
def applyTxFl (w : WalletSnapshot) (txRisk : RiskResult) (tx : Tx) (now : String) :
    WalletSnapshot :=
  let txCount := w.txCount + 1
  { w with
    txCount := txCount
    totalVolume := fl (w.totalVolume + tx.amount)
    avgRisk := fl (fl (fl (w.avgRisk * fl ((txCount : ℚ) - 1)) +
      (txRisk.score : ℚ)) / (txCount : ℚ))
    lastTick := if tx.tick = 0 then w.lastTick else some tx.tick
    lastTime := some now }

/-- A sequence of double-arithmetic wallet updates applied to one
snapshot. -/
def applyTxFlFold (w : WalletSnapshot) (events : List (RiskResult × Tx × String)) :
    WalletSnapshot :=
  events.foldl (fun w e => applyTxFl w e.1 e.2.1 e.2.2) w

/-- Three update events carrying risk scores 0, 0 and 5. -/
def flEvents : List (RiskResult × Tx × String) :=
  [(scoreOnly 0, txWithTick 1, "t1"), (scoreOnly 0, txWithTick 2, "t2"),
   (scoreOnly 5, txWithTick 3, "t3")]

/-! ### Helper lemmas -/

lemma computeRisk_score_le_100 (tx : Tx) (wi : Option WalletSnapshot) :
    (computeRisk tx wi).score ≤ 100 := by
  simp only [computeRisk]
  split <;> omega

lemma computeRisk_level_eq (tx : Tx) (wi : Option WalletSnapshot) :
    (computeRisk tx wi).level = riskLevelFromScore ((computeRisk tx wi).score : ℚ) := rfl

lemma riskLevelFromScore_cases (s : ℚ) :
    (85 ≤ s → riskLevelFromScore s = .CRITICAL) ∧
    (65 ≤ s ∧ s < 85 → riskLevelFromScore s = .HIGH) ∧
    (40 ≤ s ∧ s < 65 → riskLevelFromScore s = .MEDIUM) ∧
    (s < 40 → riskLevelFromScore s = .LOW) := by
  refine ⟨fun h => ?_, fun h => ?_, fun h => ?_, fun h => ?_⟩ <;>
    unfold riskLevelFromScore
  · rw [if_pos (show s ≥ 85 from h)]
  · rw [if_neg (not_le.mpr h.2), if_pos (show s ≥ 65 from h.1)]
  · rw [if_neg (not_le.mpr (lt_of_lt_of_le h.2 (by norm_num))),
      if_neg (not_le.mpr h.2), if_pos (show s ≥ 40 from h.1)]
  · rw [if_neg (not_le.mpr (lt_of_lt_of_le h (by norm_num))),
      if_neg (not_le.mpr (lt_of_lt_of_le h (by norm_num))),
      if_neg (not_le.mpr h)]

lemma riskLevelFromScoreJs_num (n : ℕ) :
    riskLevelFromScoreJs (.num n) = riskLevelFromScore (n : ℚ) := by
  have c85 : ((n : ℚ) ≥ 85) ↔ 85 ≤ n := by exact_mod_cast Iff.rfl
  have c65 : ((n : ℚ) ≥ 65) ↔ 65 ≤ n := by exact_mod_cast Iff.rfl
  have c40 : ((n : ℚ) ≥ 40) ↔ 40 ≤ n := by exact_mod_cast Iff.rfl
  simp only [riskLevelFromScoreJs, riskLevelFromScore, JsScore.geNum,
    decide_eq_true_eq, c85, c65, c40]

lemma procedureRuleJs_agree (p : String) (h : p ∉ objectPrototypeKeys) :
    procedureRuleJs p = (.addNum (procedureRule p).1, (procedureRule p).2) := by
  unfold procedureRuleJs procedureLookupJs procedureRule
  cases htab : procedureRiskTable p with
  | some w => rfl
  | none =>
    rw [if_neg h]
    by_cases hne : p = ""
    · subst hne; simp
    · simp [hne]

lemma jsCap (n : ℕ) :
    (if (JsScore.num n).gtNum 100 then JsScore.num 100 else JsScore.num n) =
      JsScore.num (if n > 100 then 100 else n) := by
  by_cases h : n > 100 <;> simp [JsScore.gtNum, h]

lemma computeRiskJs_agree (tx : Tx) (wi : Option WalletSnapshot)
    (h : tx.procedure ∉ objectPrototypeKeys) :
    computeRiskJs tx wi =
      { score := JsScore.num (computeRisk tx wi).score,
        level := (computeRisk tx wi).level,
        reasons := (computeRisk tx wi).reasons } := by
  unfold computeRiskJs computeRisk
  rw [procedureRuleJs_agree tx.procedure h]
  simp only [ProcEffect.apply, JsScore.addNum, Nat.zero_add]
  rw [jsCap, riskLevelFromScoreJs_num]

lemma procedureRiskTable_proto (p : String) (h : p ∈ objectPrototypeKeys) :
    procedureRiskTable p = none := by
  simp only [objectPrototypeKeys, List.mem_cons, List.not_mem_nil, or_false] at h
  rcases h with rfl|rfl|rfl|rfl|rfl|rfl|rfl|rfl|rfl|rfl|rfl|rfl <;> decide

lemma procedureRuleJs_proto (p : String) (h : p ∈ objectPrototypeKeys) :
    procedureRuleJs p = (.corrupt, ["High-risk procedure type: " ++ p]) := by
  unfold procedureRuleJs procedureLookupJs
  rw [procedureRiskTable_proto p h]
  simp [h]

lemma computeRiskJs_proto (tx : Tx) (wi : Option WalletSnapshot)
    (h : tx.procedure ∈ objectPrototypeKeys) :
    (computeRiskJs tx wi).score = JsScore.nonNumeric ∧
    (computeRiskJs tx wi).level = RiskLevel.LOW := by
  unfold computeRiskJs
  rw [procedureRuleJs_proto tx.procedure h]
  exact ⟨by simp [ProcEffect.apply, JsScore.addNum, JsScore.gtNum],
    by simp [ProcEffect.apply, JsScore.addNum, JsScore.gtNum,
      riskLevelFromScoreJs, JsScore.geNum]⟩

lemma jsParseInt_vertical_tab : jsParseInt "\x0B5" = some 5 := by decide

lemma fl_zero : fl 0 = 0 := by simp [fl]

lemma ratLog2Floor_one : ratLog2Floor 1 = 0 := by
  rw [ratLog2Floor, if_pos (le_refl 1)]
  rw [show ⌊(1 : ℚ)⌋ = 1 from by norm_num]
  simp [Nat.log2]

lemma ratLog2Floor_two : ratLog2Floor 2 = 1 := by
  rw [ratLog2Floor, if_pos (by norm_num : (1 : ℚ) ≤ 2)]
  rw [show ⌊(2 : ℚ)⌋ = 2 from by norm_num]
  simp [Nat.log2]

lemma ratLog2Floor_five : ratLog2Floor 5 = 2 := by
  rw [ratLog2Floor, if_pos (by norm_num : (1 : ℚ) ≤ 5)]
  rw [show ⌊(5 : ℚ)⌋ = 5 from by norm_num]
  simp [Nat.log2]

lemma ratLog2Floor_five_thirds : ratLog2Floor (5 / 3) = 0 := by
  rw [ratLog2Floor, if_pos (by norm_num : (1 : ℚ) ≤ 5 / 3)]
  rw [show ⌊(5 / 3 : ℚ)⌋ = 1 from by rw [Int.floor_eq_iff]; norm_num]
  simp [Nat.log2]

lemma fl_one : fl 1 = 1 := by
  rw [fl, if_neg (by norm_num : (1 : ℚ) ≠ 0)]
  simp only [abs_one, ratLog2Floor_one]
  rw [if_neg (by norm_num : ¬ (1 : ℚ) < 0)]
  rw [show (1 : ℚ) * (2 : ℚ) ^ (-((0 : ℤ) - 52)) = 4503599627370496 from by norm_num]
  rw [show ⌊(4503599627370496 : ℚ)⌋ = 4503599627370496 from by norm_num]
  norm_num

lemma fl_two : fl 2 = 2 := by
  rw [fl, if_neg (by norm_num : (2 : ℚ) ≠ 0)]
  simp only [show |(2 : ℚ)| = 2 from by norm_num, ratLog2Floor_two]
  rw [if_neg (by norm_num : ¬ (2 : ℚ) < 0)]
  rw [show (2 : ℚ) * (2 : ℚ) ^ (-((1 : ℤ) - 52)) = 4503599627370496 from by norm_num]
  rw [show ⌊(4503599627370496 : ℚ)⌋ = 4503599627370496 from by norm_num]
  norm_num

lemma fl_five : fl 5 = 5 := by
  rw [fl, if_neg (by norm_num : (5 : ℚ) ≠ 0)]
  simp only [show |(5 : ℚ)| = 5 from by norm_num, ratLog2Floor_five]
  rw [if_neg (by norm_num : ¬ (5 : ℚ) < 0)]
  rw [show (5 : ℚ) * (2 : ℚ) ^ (-((2 : ℤ) - 52)) = 5629499534213120 from by norm_num]
  rw [show ⌊(5629499534213120 : ℚ)⌋ = 5629499534213120 from by norm_num]
  norm_num

lemma fl_five_thirds : fl (5 / 3) = 7505999378950827 / 4503599627370496 := by
  rw [fl, if_neg (by norm_num : (5 / 3 : ℚ) ≠ 0)]
  simp only [show |(5 / 3 : ℚ)| = 5 / 3 from by norm_num, ratLog2Floor_five_thirds]
  rw [if_neg (by norm_num : ¬ (5 / 3 : ℚ) < 0)]
  rw [show (5 / 3 : ℚ) * (2 : ℚ) ^ (-((0 : ℤ) - 52)) = 22517998136852480 / 3 from by
    norm_num]
  rw [show ⌊(22517998136852480 / 3 : ℚ)⌋ = 7505999378950826 from by
    rw [Int.floor_eq_iff]; norm_num]
  norm_num

lemma applyTxFl_step1 : applyTxFl (freshSnapshot "A") (scoreOnly 0) (txWithTick 1) "t1" =
    { walletId := "A", txCount := 1, totalVolume := 0, avgRisk := 0,
      lastTick := some 1, lastTime := some "t1" } := by
  simp only [applyTxFl, freshSnapshot, scoreOnly, txWithTick]
  norm_num [fl_zero]

/-! ### Claims -/

/-- Counterexample to claim C1 as stated: for the procedure string
"toString" the program's lookup hits the truthy inherited
`Object.prototype.toString`, `score +=` makes the score a non-numeric
string — so the assigned riskScore is not a number in `[0, 100]` — and
the NaN-false threshold comparisons classify it LOW. -/
theorem riskScore_toString_counterexample :
    (computeRiskJs txToString none).score = JsScore.nonNumeric ∧
    (computeRiskJs txToString none).score.inRangeB = false ∧
    (computeRiskJs txToString none).level = RiskLevel.LOW ∧
    (computeRiskJs txToString none).reasons =
      ["Large transaction amount (>= 100k QU)",
       "High-risk procedure type: toString",
       "Brand new wallet with significant amount"] := by
  refine ⟨by decide, by decide, by decide, by decide⟩

/-- Claim C1 as amended: for every ingested transaction whose procedure
does not collide with an inherited `Object.prototype` member name, the
assigned riskScore is a number in `[0, 100]` and riskLevel is the pure
threshold function of it (≥ 85 CRITICAL, ≥ 65 HIGH, ≥ 40 MEDIUM, else
LOW); for one of the twelve colliding procedure strings the JS lookup
returns a truthy inherited member, `score +=` corrupts the score into a
non-numeric string — not in `[0, 100]` — and the level classifies as
LOW. -/
theorem riskScore_in_range_amended (st : ServerState) (raw : RawTx) (now : String) :
    ((normalizeTx raw).procedure ∉ objectPrototypeKeys →
      (computeRiskJs (normalizeTx raw) (st.walletStats (normalizeTx raw).source)).score =
        JsScore.num ((postTransaction st raw now).2.riskScore) ∧
      (computeRiskJs (normalizeTx raw) (st.walletStats (normalizeTx raw).source)).level =
        (postTransaction st raw now).2.riskLevel ∧
      (postTransaction st raw now).2.riskScore ≤ 100 ∧
      (postTransaction st raw now).2.riskLevel =
        riskLevelFromScore ((postTransaction st raw now).2.riskScore : ℚ) ∧
      (85 ≤ (postTransaction st raw now).2.riskScore →
        (postTransaction st raw now).2.riskLevel = RiskLevel.CRITICAL) ∧
      (65 ≤ (postTransaction st raw now).2.riskScore ∧
          (postTransaction st raw now).2.riskScore < 85 →
        (postTransaction st raw now).2.riskLevel = RiskLevel.HIGH) ∧
      (40 ≤ (postTransaction st raw now).2.riskScore ∧
          (postTransaction st raw now).2.riskScore < 65 →
        (postTransaction st raw now).2.riskLevel = RiskLevel.MEDIUM) ∧
      ((postTransaction st raw now).2.riskScore < 40 →
        (postTransaction st raw now).2.riskLevel = RiskLevel.LOW)) ∧
    ((normalizeTx raw).procedure ∈ objectPrototypeKeys →
      (computeRiskJs (normalizeTx raw) (st.walletStats (normalizeTx raw).source)).score =
        JsScore.nonNumeric ∧
      (computeRiskJs (normalizeTx raw) (st.walletStats (normalizeTx raw).source)).level =
        RiskLevel.LOW) := by
  have hscore : (postTransaction st raw now).2.riskScore =
      (computeRisk (normalizeTx raw) (st.walletStats (normalizeTx raw).source)).score := rfl
  have hlevel : (postTransaction st raw now).2.riskLevel =
      riskLevelFromScore (((postTransaction st raw now).2.riskScore : ℚ)) := rfl
  constructor
  · intro h
    have hagree := computeRiskJs_agree (normalizeTx raw)
      (st.walletStats (normalizeTx raw).source) h
    refine ⟨by rw [hagree]; rfl, by rw [hagree]; rfl, ?_, hlevel, ?_, ?_, ?_, ?_⟩
    · rw [hscore]; exact computeRisk_score_le_100 _ _
    · intro hs
      rw [hlevel]
      exact (riskLevelFromScore_cases _).1 (by exact_mod_cast hs)
    · intro hs
      rw [hlevel]
      exact (riskLevelFromScore_cases _).2.1 ⟨by exact_mod_cast hs.1, by exact_mod_cast hs.2⟩
    · intro hs
      rw [hlevel]
      exact (riskLevelFromScore_cases _).2.2.1 ⟨by exact_mod_cast hs.1, by exact_mod_cast hs.2⟩
    · intro hs
      rw [hlevel]
      exact (riskLevelFromScore_cases _).2.2.2 (by exact_mod_cast hs)
  · intro h
    exact computeRiskJs_proto _ _ h

/-- Witness for the amended C1 at a concrete ingestion whose (empty)
procedure avoids the inherited names: the low score classifies as
LOW. -/
theorem riskScore_in_range_amended_witness :
    (postTransaction initialState rawLow "t0").2.riskLevel = RiskLevel.LOW :=
  ((riskScore_in_range_amended initialState rawLow "t0").1
    (by decide)).2.2.2.2.2.2.2 (by decide)

/-- Counterexample to claim C2 as stated: "toString" is a non-empty
procedure string outside the three-entry table, yet the rule does not
add +5 with an unrecognized reason — the JS lookup finds the truthy
inherited `Object.prototype.toString`, takes the table-hit branch,
pushes a High-risk reason and corrupts the score with a non-numeric
addend. -/
theorem procedureRule_toString_counterexample :
    procedureRuleJs "toString" =
      (ProcEffect.corrupt, ["High-risk procedure type: toString"]) ∧
    ProcEffect.corrupt ≠ ProcEffect.addNum 5 ∧
    "toString" ≠ "" ∧
    procedureRiskTable "toString" = none := by
  refine ⟨by decide, by decide, by decide, by decide⟩

/-- Claim C2 as amended: a table hit (20/30/35) adds that weight and one
reason naming the procedure; a non-empty procedure that is neither a
table entry nor one of the twelve inherited `Object.prototype` member
names adds exactly +5 with one unrecognized-procedure reason; the empty
procedure adds nothing and no reason; an inherited member name takes
the table-hit branch instead, pushing a High-risk reason and corrupting
the score with a non-numeric addend; and `computeRisk`'s reasons are
the rule blocks' reasons concatenated in rule order. -/
theorem procedureRule_contribution_amended :
    procedureRuleJs "QxAddToBidOrder" =
      (ProcEffect.addNum 20, ["High-risk procedure type: QxAddToBidOrder"]) ∧
    procedureRuleJs "TransferShareOwnershipAndPossession" =
      (ProcEffect.addNum 30,
        ["High-risk procedure type: TransferShareOwnershipAndPossession"]) ∧
    procedureRuleJs "IssueAsset" =
      (ProcEffect.addNum 35, ["High-risk procedure type: IssueAsset"]) ∧
    procedureRuleJs "" = (ProcEffect.addNum 0, []) ∧
    (∀ p : String, p ∈ objectPrototypeKeys →
      procedureRuleJs p = (ProcEffect.corrupt, ["High-risk procedure type: " ++ p])) ∧
    (∀ p : String, p ≠ "QxAddToBidOrder" →
      p ≠ "TransferShareOwnershipAndPossession" → p ≠ "IssueAsset" →
      p ∉ objectPrototypeKeys → p ≠ "" →
      procedureRuleJs p = (ProcEffect.addNum 5,
        ["Unknown / less common procedure: " ++ p])) ∧
    (∀ tx wi, (computeRiskJs tx wi).reasons =
      (amountRule tx.amount).2 ++ (procedureRuleJs tx.procedure).2 ++
      (historyRule tx.amount tx.tick wi).2 ++ (identityRule tx.source tx.dest).2) := by
  refine ⟨by decide, by decide, by decide, by decide, ?_, ?_, fun tx wi => rfl⟩
  · intro p hp
    exact procedureRuleJs_proto p hp
  · intro p h1 h2 h3 h4 h5
    unfold procedureRuleJs procedureLookupJs procedureRiskTable
    rw [if_neg h1, if_neg h2, if_neg h3, if_neg h4]
    simp [h5]

/-- Witness for the amended C2 at a concrete unrecognized procedure
string outside both the table and the inherited names. -/
theorem procedureRule_contribution_amended_witness :
    procedureRuleJs "Transfer" =
      (ProcEffect.addNum 5, ["Unknown / less common procedure: Transfer"]) :=
  procedureRule_contribution_amended.2.2.2.2.2.1 "Transfer"
    (by decide) (by decide) (by decide) (by decide) (by decide)

/-- Claim C7: amount 250000, procedure QxAddToBidOrder, distinct
source/dest, tick 12045, no prior snapshot: score 60 (30 + 20 + 10),
level MEDIUM, exactly 3 reasons in rule order. -/
theorem scenario_qx_bid_order :
    computeRisk
      { amount := 250000, source := "0xA1B2", dest := "0xC3D4",
        tick := 12045, procedure := "QxAddToBidOrder" } none =
      { score := 60, level := .MEDIUM,
        reasons := ["Large transaction amount (>= 100k QU)",
          "High-risk procedure type: QxAddToBidOrder",
          "Brand new wallet with significant amount"] } ∧
    (computeRisk
      { amount := 250000, source := "0xA1B2", dest := "0xC3D4",
        tick := 12045, procedure := "QxAddToBidOrder" } none).reasons.length = 3 := by
  constructor <;> decide

/-- Claim C10: `riskLevelFromScore` is total into the four levels and
monotone with respect to LOW < MEDIUM < HIGH < CRITICAL. -/
theorem riskLevelFromScore_monotone_total :
    (∀ s1 s2 : ℚ, s1 ≤ s2 →
      (riskLevelFromScore s1).rank ≤ (riskLevelFromScore s2).rank) ∧
    (∀ s : ℚ, riskLevelFromScore s = .LOW ∨ riskLevelFromScore s = .MEDIUM ∨
      riskLevelFromScore s = .HIGH ∨ riskLevelFromScore s = .CRITICAL) := by
  constructor
  · intro s1 s2 h
    unfold riskLevelFromScore
    split_ifs <;> simp [RiskLevel.rank] <;> linarith
  · intro s
    unfold riskLevelFromScore
    split_ifs <;> simp

/-- Witness for C10 at scores 30 ≤ 90. -/
theorem riskLevelFromScore_monotone_total_witness :
    (riskLevelFromScore 30).rank ≤ (riskLevelFromScore 90).rank :=
  riskLevelFromScore_monotone_total.1 30 90 (by norm_num)

lemma updateWalletStats_self (stats : WalletMap) (id : String) (h : id ≠ "")
    (r : RiskResult) (tx : Tx) (now : String) :
    updateWalletStats stats id r tx now id =
      some (applyTx ((stats id).getD (freshSnapshot id)) r tx now) := by
  unfold updateWalletStats
  rw [if_neg h]
  simp

lemma applyTx_txCount (w : WalletSnapshot) (r : RiskResult) (tx : Tx) (now : String) :
    (applyTx w r tx now).txCount = w.txCount + 1 := rfl

lemma applyTx_avg (w : WalletSnapshot) (r : RiskResult) (tx : Tx) (now : String) :
    (applyTx w r tx now).avgRisk * (((applyTx w r tx now).txCount : ℕ) : ℚ) =
      w.avgRisk * ((w.txCount : ℕ) : ℚ) + (r.score : ℚ) := by
  have h0 : ((w.txCount + 1 : ℕ) : ℚ) ≠ 0 := by positivity
  simp only [applyTx]
  rw [div_mul_cancel₀ _ h0]
  push_cast
  ring

lemma applyScores_lookup (id : String) (h : id ≠ "")
    (events : List (RiskResult × Tx × String)) :
    ∀ (stats : WalletMap) (w : WalletSnapshot), stats id = some w →
      ∃ w', applyScores stats id events id = some w' ∧
        w'.txCount = w.txCount + events.length ∧
        w'.avgRisk * ((w'.txCount : ℕ) : ℚ) =
          w.avgRisk * ((w.txCount : ℕ) : ℚ) +
            (events.map (fun e => (e.1.score : ℚ))).sum := by
  induction events with
  | nil =>
    intro stats w hw
    exact ⟨w, by simpa [applyScores] using hw, by simp, by simp⟩
  | cons e es ih =>
    intro stats w hw
    have hstep := updateWalletStats_self stats id h e.1 e.2.1 e.2.2
    rw [hw] at hstep
    simp only [Option.getD_some] at hstep
    obtain ⟨w', hw', hc, ha⟩ :=
      ih (updateWalletStats stats id e.1 e.2.1 e.2.2) (applyTx w e.1 e.2.1 e.2.2) hstep
    refine ⟨w', by simpa [applyScores] using hw', ?_, ?_⟩
    · rw [hc, applyTx_txCount]
      simp only [List.length_cons]
      omega
    · rw [ha, applyTx_avg]
      simp only [List.map_cons, List.sum_cons]
      ring

/-- Counterexample to claim C3 as stated: under the program's IEEE-754
double arithmetic (each operation's exact result rounded to 53-bit
binary64 by `fl`), applying the risk scores 0, 0, 5 to a fresh wallet
stores `avgRisk = fl(5/3) = 7505999378950827 / 2^52`, which is not the
exact arithmetic mean 5/3 — the incremental formula is an
approximation, not exact, in the program's floating point. -/
theorem avgRisk_float_counterexample :
    (applyTxFlFold (freshSnapshot "A") flEvents).avgRisk =
      7505999378950827 / 4503599627370496 ∧
    (7505999378950827 : ℚ) / 4503599627370496 ≠
      (flEvents.map (fun e => (e.1.score : ℚ))).sum / (flEvents.length : ℚ) ∧
    (flEvents.map (fun e => (e.1.score : ℚ))).sum / (flEvents.length : ℚ) = 5 / 3 := by
  refine ⟨?_, by norm_num [flEvents, scoreOnly], by norm_num [flEvents, scoreOnly]⟩
  show (applyTxFl (applyTxFl (applyTxFl (freshSnapshot "A") (scoreOnly 0) (txWithTick 1) "t1")
    (scoreOnly 0) (txWithTick 2) "t2") (scoreOnly 5) (txWithTick 3) "t3").avgRisk = _
  rw [applyTxFl_step1]
  have step2 : applyTxFl
      { walletId := "A", txCount := 1, totalVolume := 0, avgRisk := 0,
        lastTick := some 1, lastTime := some "t1" } (scoreOnly 0) (txWithTick 2) "t2" =
      ({ walletId := "A", txCount := 2, totalVolume := 0, avgRisk := 0,
         lastTick := some 2, lastTime := some "t2" } : WalletSnapshot) := by
    simp only [applyTxFl, scoreOnly, txWithTick]
    norm_num [fl_zero, fl_one]
  rw [step2]
  simp only [applyTxFl, scoreOnly, txWithTick]
  norm_num [fl_zero, fl_two, fl_five, fl_five_thirds]

/-- Claim C3 as amended: starting from snapshot creation, `n` successive
`updateWalletStats` calls applying scores `s1..sn` leave `avgRisk`
equal to the exact arithmetic mean `(s1 + ... + sn) / n` when the
arithmetic is exact (modelled by exact rationals) — the incremental
recurrence is algebraically the mean; under the program's IEEE-754
doubles each operation rounds, so the stored value is only the
correspondingly rounded approximation of that mean. -/
theorem avgRisk_exact_mean (id : String) (h : id ≠ "")
    (events : List (RiskResult × Tx × String)) (hne : events ≠ [])
    (stats : WalletMap) (h0 : stats id = none) :
    ∃ w', applyScores stats id events id = some w' ∧
      w'.txCount = events.length ∧
      w'.avgRisk = (events.map (fun e => (e.1.score : ℚ))).sum / (events.length : ℚ) := by
  match events, hne with
  | e :: es, _ =>
    have hstep := updateWalletStats_self stats id h e.1 e.2.1 e.2.2
    rw [h0] at hstep
    simp only [Option.getD_none] at hstep
    obtain ⟨w', hw', hc, ha⟩ := applyScores_lookup id h es _ _ hstep
    have hc' : w'.txCount = es.length + 1 := by
      rw [hc, applyTx_txCount]
      show 0 + 1 + es.length = es.length + 1
      omega
    have hfresh := applyTx_avg (freshSnapshot id) e.1 e.2.1 e.2.2
    have hzero : (freshSnapshot id).avgRisk * (((freshSnapshot id).txCount : ℕ) : ℚ) = 0 := by
      simp [freshSnapshot]
    rw [hzero, zero_add] at hfresh
    have hsum : w'.avgRisk * ((w'.txCount : ℕ) : ℚ) =
        ((e :: es).map (fun e => (e.1.score : ℚ))).sum := by
      rw [ha, hfresh]
      simp [List.map_cons, List.sum_cons]
    have hlen : ((w'.txCount : ℕ) : ℚ) ≠ 0 := by
      rw [hc']
      positivity
    refine ⟨w', by simpa [applyScores] using hw',
      by rw [List.length_cons]; exact hc', ?_⟩
    rw [eq_div_iff (by simpa [hc'] using hlen)]
    rw [← hsum, hc']
    simp [List.length_cons]

/-- Witness for C3 on the two-event sequence with scores 10 and 20. -/
theorem avgRisk_exact_mean_witness :
    ∃ w', applyScores (fun _ => none) "A" evList "A" = some w' ∧
      w'.txCount = evList.length ∧
      w'.avgRisk = (evList.map (fun e => (e.1.score : ℚ))).sum / (evList.length : ℚ) :=
  avgRisk_exact_mean "A" (by decide) evList (by decide) (fun _ => none) rfl

/-- Counterexample to claim C4 as stated: after an update whose
transaction has tick 0, `lastTick` is the previous value (here 5 from
the earlier update), not the applied transaction's tick 0 — the code
keeps the old value because `tx.tick || w.lastTick` treats 0 as falsy. -/
theorem lastTick_zero_counterexample :
    ((updateWalletStats
        (updateWalletStats (fun _ => none) "A" (scoreOnly 0) (txWithTick 5) "t1")
        "A" (scoreOnly 0) (txWithTick 0) "t2") "A").map WalletSnapshot.lastTick =
      some (some 5) ∧
    (txWithTick 0).tick = 0 ∧
    some (some (5 : ℚ)) ≠ some (some ((txWithTick 0).tick)) := by
  refine ⟨by decide, by decide, by decide⟩

/-- Claim C4 as amended: after `updateWalletStats` with a non-empty id,
`lastTick` is the applied transaction's tick when that tick is non-zero;
when the tick is 0 (falsy in `tx.tick || w.lastTick`), `lastTick`
retains its previous value (`null` for a fresh wallet). -/
theorem lastTick_update_amended (stats : WalletMap) (id : String) (h : id ≠ "")
    (r : RiskResult) (tx : Tx) (now : String) :
    ∃ w, updateWalletStats stats id r tx now id = some w ∧
      w.lastTick = if tx.tick = 0
        then ((stats id).getD (freshSnapshot id)).lastTick
        else some tx.tick :=
  ⟨_, updateWalletStats_self stats id h r tx now, rfl⟩

/-- Witness for the amended C4 at a concrete non-zero tick. -/
theorem lastTick_update_amended_witness :
    ∃ w, updateWalletStats (fun _ => none) "A" (scoreOnly 0) (txWithTick 7) "t1" "A" =
        some w ∧
      w.lastTick = if (txWithTick 7).tick = 0
        then (((fun _ => none : WalletMap) "A").getD (freshSnapshot "A")).lastTick
        else some (txWithTick 7).tick :=
  lastTick_update_amended (fun _ => none) "A" (by decide) (scoreOnly 0) (txWithTick 7) "t1"

/-- Counterexample to claim C5 as stated: a raw amount of -5 is numeric,
so `Number(raw.amount) || 0` keeps it; the stored transaction's amount
is -5 < 0 and -5 is added to the source wallet's `totalVolume`. -/
theorem negative_amount_counterexample :
    (postTransaction initialState rawNeg "t0").2.amount = -5 ∧
    ¬ (0 ≤ (postTransaction initialState rawNeg "t0").2.amount) ∧
    ((postTransaction initialState rawNeg "t0").1.walletStats "A").map
      WalletSnapshot.totalVolume = some (-5) := by
  refine ⟨by decide, by decide, ?_⟩
  simp +decide [postTransaction, initialState, normalizeTx, rawNeg, RawNum.toNumber,
    updateWalletStats, applyTx, freshSnapshot]

/-- Claim C5 as amended: the stored amount is exactly the JS numeric
coercion of the raw field — missing and non-numeric inputs coerce to 0,
but a negative numeric input is stored as-is, so the stored amount (and
the value added to `totalVolume`) need not be non-negative. -/
theorem amount_coercion_amended (st : ServerState) (raw : RawTx) (now : String) :
    (postTransaction st raw now).2.amount = raw.amount.toNumber ∧
    RawNum.missing.toNumber = 0 ∧
    RawNum.nonNumeric.toNumber = 0 ∧
    (∀ q : ℚ, (RawNum.num q).toNumber = q) :=
  ⟨rfl, rfl, rfl, fun _ => rfl⟩

lemma jsSlice_neg_drop (l : List StoredTx) (n : ℕ) (hn : 0 < n) :
    jsSlice l (some (-(n : ℤ))) = l.drop (l.length - n) := by
  show (if (-(n : ℤ)) < 0 then
      l.drop (max ((l.length : ℤ) + (-(n : ℤ))) 0).toNat
    else l.drop (min (-(n : ℤ)) (l.length : ℤ)).toNat) = l.drop (l.length - n)
  rw [if_pos (by omega : (-(n : ℤ)) < 0)]
  congr 1
  omega

lemma drop_length_sub_reverse (l : List StoredTx) (n : ℕ) :
    (l.drop (l.length - n)).reverse = l.reverse.take n := by
  have h := List.rtake_eq_reverse_take_reverse (l := l) (n := n)
  rw [List.rtake] at h
  rw [h, List.reverse_reverse]

/-- Claim C9: for `GET /api/transactions`, a present `limit` that parses
to 0 or to NaN returns all (level-filtered) transactions newest first —
`slice(-0)` and `slice(NaN)` slice from index 0 — while a parsed limit
N ≥ 1 truncates to the N most recent. -/
theorem getTransactions_zero_nan_limit :
    (∀ (st : ServerState) (level : Option String) (s : String), s ≠ "" →
      (jsParseInt s = some 0 ∨ jsParseInt s = none) →
      getTransactions st level (some s) = (levelFilter st.transactions level).reverse) ∧
    (∀ (st : ServerState) (level : Option String) (s : String) (n : ℕ), s ≠ "" →
      1 ≤ n → jsParseInt s = some ((n : ℕ) : ℤ) →
      getTransactions st level (some s) =
        ((levelFilter st.transactions level).reverse).take n) := by
  constructor
  · intro st level s hs hparse
    simp only [getTransactions]
    rw [if_neg hs]
    rcases hparse with h0 | h0 <;> rw [h0]
    · show (jsSlice _ (some (-0))).reverse = _
      norm_num [jsSlice]
    · rfl
  · intro st level s n hs hn hparse
    simp only [getTransactions]
    rw [if_neg hs, hparse]
    show (jsSlice _ (some (-((n : ℕ) : ℤ)))).reverse = _
    rw [jsSlice_neg_drop _ n hn, drop_length_sub_reverse]

/-- Witness for C9: on `stA` a `limit` of "0" returns the full reversed
transaction list. -/
theorem getTransactions_zero_nan_limit_witness :
    getTransactions stA none (some "0") = (levelFilter stA.transactions none).reverse :=
  getTransactions_zero_nan_limit.1 stA none "0" (by decide) (Or.inl (by decide))

end QubicFraud
